import Mathlib

/-!
Shallow embedding of the portfolio backend core
(src/backend/server.py, src/Backend/models.py, src/Backend/utils.py).

Stored documents are modelled BSON-style as association lists of field
names to values; the document store appends a hidden `_id` token to each
inserted document, and an inclusion projection keeps `_id` together with
the requested fields, as the store does when `_id` is not explicitly
suppressed. Machine clock instants are modelled as integers (seconds),
UUID generation as a supplied fresh token, and each fallible outside
effect (geolocation HTTP call, storage reads/writes) as explicit data
passed into the operation.
-/

/-- A stored field value: strings, numeric tokens (ids), UTC instants, null. -/
inductive BVal where
  | str (s : String)
  | nat (n : Nat)
  | time (t : Int)
  | null
deriving DecidableEq

/-- A stored document: ordered association list of field names to values. -/
abbrev Doc := List (String × BVal)

/-- `doc.get(k)`: the value at field `k`, `none` when the field is absent. -/
def docGet (d : Doc) (k : String) : Option BVal :=
  (d.find? (fun kv => kv.1 == k)).map (fun kv => kv.2)

/-- The field names of a document, in stored order. -/
def docKeys (d : Doc) : List String :=
  d.map (fun kv => kv.1)

/-- Inclusion projection: keeps `_id` plus the requested fields
(the store includes `_id` unless it is explicitly suppressed, and the
queries in `server.py` never suppress it). -/
def projectDoc (proj : List String) (d : Doc) : Doc :=
  d.filter (fun kv => kv.1 == "_id" || proj.contains kv.1)

/-- models.AnalyticsTrack: the ingestion request body. `timestamp = none`
models a caller that supplied no timestamp (the pydantic default factory
then fills in the ingestion instant). -/
structure AnalyticsTrack where
  page : String
  sessionId : String
  userAgent : Option String := none
  referrer : Option String := none
  timestamp : Option Int := none
deriving DecidableEq

/-- models.AnalyticsRecord: one persisted VisitEvent. The uuid4 identifier
is modelled as an abstract numeric token. -/
structure AnalyticsRecord where
  id : Nat
  sessionId : String
  page : String
  timestamp : Int
  userAgent : Option String := none
  ip : Option String := none
  country : Option String := none
  city : Option String := none
  referrer : Option String := none
deriving DecidableEq

/-- An optional string as stored in a document (pydantic `.dict()` keeps
`None` fields, which the store holds as null). -/
def optB : Option String → BVal
  | some s => .str s
  | none => .null

/-- `record.dict()`: the document written by `insert_one`, fields in
model declaration order. -/
def AnalyticsRecord.dict (r : AnalyticsRecord) : Doc :=
  [("id", .nat r.id), ("sessionId", .str r.sessionId), ("page", .str r.page),
   ("timestamp", .time r.timestamp), ("userAgent", optB r.userAgent),
   ("ip", optB r.ip), ("country", optB r.country), ("city", optB r.city),
   ("referrer", optB r.referrer)]

/-- The document as it rests in the store: `insert_one` assigns a hidden
`_id`, which the store serialises first. -/
def insertedDoc (oid : Nat) (r : AnalyticsRecord) : Doc :=
  ("_id", .nat oid) :: r.dict

/-- The analytics collection: each entry is a stored `_id` together with
the VisitEvent it was inserted from. -/
abbrev AnalyticsStore := List (Nat × AnalyticsRecord)

/-- The documents of the analytics collection. -/
def analyticsDocs (store : AnalyticsStore) : List Doc :=
  store.map (fun p => insertedDoc p.1 p.2)

/-- The JSON body a successful geolocation response may carry
(`data.get` returns `none` for absent keys). -/
structure GeoData where
  country_name : Option String := none
  city : Option String := none
  region : Option String := none
deriving DecidableEq

/-- The country/city/region triple returned by `utils.get_ip_info`. -/
structure IpInfo where
  country : String
  city : String
  region : String
deriving DecidableEq

/-- utils.get_ip_info: the HTTP exchange with ipapi.co is modelled as
`none` (timeout / exception) or `some (status, data)`. Any outcome other
than a 200 response yields the "Unknown" sentinel triple; the function
never raises. -/
def get_ip_info (resp : Option (Nat × GeoData)) : IpInfo :=
  match resp with
  | some (status, data) =>
      if status = 200 then
        { country := data.country_name.getD "Unknown"
          city := data.city.getD "Unknown"
          region := data.region.getD "Unknown" }
      else { country := "Unknown", city := "Unknown", region := "Unknown" }
  | none => { country := "Unknown", city := "Unknown", region := "Unknown" }

/-- The request context the IP resolution reads: the two headers
(`none` when absent) and `request.client.host` (`none` when the
framework supplies no client address). -/
structure Request where
  xForwardedFor : Option String := none
  xRealIp : Option String := none
  client : Option String := none
deriving DecidableEq

/-- Python `s.split(",")[0]`: the characters before the first comma. -/
def pySplitFirst (s : String) : String :=
  String.mk (s.toList.takeWhile (fun c => c ≠ ','))

/-- Python `s.strip()`: drops leading and trailing whitespace. -/
def pyStrip (s : String) : String :=
  String.mk (((s.toList.dropWhile Char.isWhitespace).reverse.dropWhile
    Char.isWhitespace).reverse)

/-- utils.get_client_ip: Python truthiness makes an absent header and an
empty header act alike, so each header is read with `""` as default. -/
def get_client_ip (r : Request) : String :=
  let forwarded_for := r.xForwardedFor.getD ""
  if forwarded_for ≠ "" then pyStrip (pySplitFirst forwarded_for)
  else
    let real_ip := r.xRealIp.getD ""
    if real_ip ≠ "" then real_ip
    else
      let client_host := r.client.getD "127.0.0.1"
      if client_host ≠ "testclient" then client_host else "127.0.0.1"

/-- models.SuccessResponse. -/
structure SuccessResponse where
  success : Bool := true
  message : String
  data : Option (List (String × BVal)) := none
deriving DecidableEq

/-- A FastAPI HTTPException raised by a route handler. -/
inductive HTTPError where
  | httpException (statusCode : Nat) (detail : String)
deriving DecidableEq

/-- The ambient effects of one `track_analytics` call: the geolocation
exchange, the clock, the freshly drawn uuid token, the `_id` the store
assigns, and whether the `insert_one` write fails. -/
structure TrackCtx where
  geoResp : Option (Nat × GeoData) := none
  now : Int := 0
  freshId : Nat := 0
  oid : Nat := 0
  insertFails : Bool := false

/-- server.track_analytics: builds the AnalyticsRecord (timestamp
defaulted to the ingestion instant when the caller sent none), persists
it, and acknowledges; a storage failure surfaces as a 500. -/
def track_analytics (a : AnalyticsTrack) (req : Request) (ctx : TrackCtx)
    (store : AnalyticsStore) :
    Except HTTPError (AnalyticsStore × SuccessResponse) :=
  let client_ip := get_client_ip req
  let ip_info := get_ip_info ctx.geoResp
  let record : AnalyticsRecord :=
    { id := ctx.freshId
      sessionId := a.sessionId
      page := a.page
      timestamp := a.timestamp.getD ctx.now
      userAgent := a.userAgent
      ip := some client_ip
      country := some ip_info.country
      city := some ip_info.city
      referrer := a.referrer }
  if ctx.insertFails then .error (.httpException 500 "Failed to track analytics")
  else .ok (store ++ [(ctx.oid, record)],
    { message := "Analytics tracked successfully" })

/-- The stats snapshot (models.AnalyticsStats). Popular-page and
country-stat entries are the `(key, count)` pairs returned by the
grouping of the store; recent visitors are projected documents. -/
structure AnalyticsStats where
  totalViews : Nat
  uniqueVisitors : Nat
  popularPages : List (Option BVal × Nat)
  recentVisitors : List Doc
  countryStats : List (Option BVal × Nat)
deriving DecidableEq

/-- The number of occurrences of a value in a list. -/
def countOf {α : Type} [DecidableEq α] : List α → α → Nat
  | [], _ => 0
  | x :: t, v => countOf t v + if x = v then 1 else 0

/-- Group a list of keys into `(key, multiplicity)` pairs, one per
distinct key (the `$group`-with-`$sum` stage of the store and the
`Counter` of Python). -/
def groupCounts {α : Type} [DecidableEq α] (l : List α) : List (α × Nat) :=
  l.dedup.map (fun k => (k, countOf l k))

/-- The `{"count": -1}` sort order on grouped pages. -/
def viewsDesc (a b : Option BVal × Nat) : Prop := b.2 ≤ a.2

instance : DecidableRel viewsDesc :=
  fun a b => inferInstanceAs (Decidable (b.2 ≤ a.2))

instance : IsTotal (Option BVal × Nat) viewsDesc :=
  ⟨fun a b => le_total b.2 a.2⟩

instance : IsTrans (Option BVal × Nat) viewsDesc :=
  ⟨fun _ _ _ h1 h2 => le_trans h2 h1⟩

/-- `db.analytics.count_documents({})`. -/
def total_views (docs : List Doc) : Nat := docs.length

/-- `len(db.analytics.distinct("sessionId"))`. -/
def unique_visitors (docs : List Doc) : Nat :=
  ((docs.map (fun d => docGet d "sessionId")).dedup).length

/-- The `$group`/`$sort`/`$limit` pipeline for popular pages. -/
def popular_pages (docs : List Doc) : List (Option BVal × Nat) :=
  ((groupCounts (docs.map (fun d => docGet d "page"))).insertionSort viewsDesc).take 10

/-- `timedelta(days=1)` in clock units. -/
def oneDay : Int := 86400

/-- The `{"timestamp": {"$gte": bound}}` filter: matches documents whose
timestamp field holds an instant at or after `bound`. -/
def tsFilter (bound : Int) (d : Doc) : Bool :=
  match docGet d "timestamp" with
  | some (.time t) => bound ≤ t
  | _ => false

/-- The timestamp a document sorts by. -/
def tsKey (d : Doc) : Int :=
  match docGet d "timestamp" with
  | some (.time t) => t
  | _ => 0

/-- The `.sort("timestamp", -1)` order. -/
def tsDesc (a b : Doc) : Prop := tsKey b ≤ tsKey a

instance : DecidableRel tsDesc :=
  fun a b => inferInstanceAs (Decidable (tsKey b ≤ tsKey a))

instance : IsTotal Doc tsDesc := ⟨fun a b => le_total (tsKey b) (tsKey a)⟩

instance : IsTrans Doc tsDesc := ⟨fun _ _ _ h1 h2 => le_trans h2 h1⟩

/-- The inclusion projection of the recent-visitors query. -/
def recentProjection : List String := ["country", "city", "timestamp", "page"]

/-- The recent-visitors query: filter to the trailing 24 hours, sort by
timestamp descending, limit 20, project each returned document. -/
def recent_visitors (now : Int) (docs : List Doc) : List Doc :=
  (((docs.filter (tsFilter (now - oneDay))).insertionSort tsDesc).take 20).map
    (projectDoc recentProjection)

/-- The country tally: read every document projected to its country
field, keep values other than the "Unknown" sentinel, count with
`Counter`. -/
def country_stats (docs : List Doc) : List (Option BVal × Nat) :=
  groupCounts (((docs.map (projectDoc ["country"])).map
    (fun d => docGet d "country")).filter
      (fun v => v != some (BVal.str "Unknown")))

/-- The ambient effects of one `get_analytics_stats` call: the clock and
a failure flag per storage read, in the order the handler issues them. -/
structure StatsCtx where
  now : Int := 0
  countFails : Bool := false
  distinctFails : Bool := false
  aggregateFails : Bool := false
  recentFails : Bool := false
  countryFails : Bool := false

/-- The snapshot the handler assembles when every read succeeds. -/
def statsOf (now : Int) (store : AnalyticsStore) : AnalyticsStats :=
  let docs := analyticsDocs store
  { totalViews := total_views docs
    uniqueVisitors := unique_visitors docs
    popularPages := popular_pages docs
    recentVisitors := recent_visitors now docs
    countryStats := country_stats docs }

/-- The body of the `try` block of the handler: each storage read in order,
`none` as soon as one raises. -/
def statsTry (ctx : StatsCtx) (store : AnalyticsStore) : Option AnalyticsStats :=
  if ctx.countFails then none
  else if ctx.distinctFails then none
  else if ctx.aggregateFails then none
  else if ctx.recentFails then none
  else if ctx.countryFails then none
  else some (statsOf ctx.now store)

/-- server.get_analytics_stats: the snapshot, or the single aggregate
500 the `except` branch raises. -/
def get_analytics_stats (ctx : StatsCtx) (store : AnalyticsStore) :
    Except HTTPError AnalyticsStats :=
  match statsTry ctx store with
  | some s => .ok s
  | none => .error (.httpException 500 "Failed to get analytics stats")

/-- models.NewsletterSubscribe. -/
structure NewsletterSubscribe where
  email : String
  name : String
deriving DecidableEq

/-- models.NewsletterRecord. -/
structure NewsletterRecord where
  id : Nat
  email : String
  name : String
  subscribedAt : Int
  status : String := "active"
deriving DecidableEq

/-- The ambient effects of one `subscribe_newsletter` call. -/
structure NewsletterCtx where
  now : Int := 0
  freshId : Nat := 0
  findFails : Bool := false
  insertFails : Bool := false

/-- server.subscribe_newsletter: look up the email, acknowledge without
writing when it is already present, otherwise insert a fresh record. -/
def subscribe_newsletter (n : NewsletterSubscribe) (ctx : NewsletterCtx)
    (store : List NewsletterRecord) :
    Except HTTPError (List NewsletterRecord × SuccessResponse) :=
  if ctx.findFails then
    .error (.httpException 500 "Failed to subscribe to newsletter")
  else
    match store.find? (fun r => r.email == n.email) with
    | some _ =>
        .ok (store, { message := "You are already subscribed to our newsletter!" })
    | none =>
        if ctx.insertFails then
          .error (.httpException 500 "Failed to subscribe to newsletter")
        else
          .ok (store ++ [{ id := ctx.freshId, email := n.email, name := n.name,
                           subscribedAt := ctx.now }],
               { message := "Thank you for subscribing to our newsletter!" })

/-! ### Basic facts about stored documents -/

lemma docGet_sessionId (o : Nat) (r : AnalyticsRecord) :
    docGet (insertedDoc o r) "sessionId" = some (BVal.str r.sessionId) := rfl

lemma docGet_page (o : Nat) (r : AnalyticsRecord) :
    docGet (insertedDoc o r) "page" = some (BVal.str r.page) := rfl

lemma tsKey_insertedDoc (o : Nat) (r : AnalyticsRecord) :
    tsKey (insertedDoc o r) = r.timestamp := rfl

lemma tsKey_projected (o : Nat) (r : AnalyticsRecord) :
    tsKey (projectDoc recentProjection (insertedDoc o r)) = r.timestamp := rfl

lemma tsFilter_projected (b : Int) (o : Nat) (r : AnalyticsRecord) :
    tsFilter b (projectDoc recentProjection (insertedDoc o r)) =
      tsFilter b (insertedDoc o r) := rfl

lemma docKeys_projected (o : Nat) (r : AnalyticsRecord) :
    docKeys (projectDoc recentProjection (insertedDoc o r)) =
      ["_id", "page", "timestamp", "country", "city"] := rfl

lemma mem_analyticsDocs {store : AnalyticsStore} {d : Doc} :
    d ∈ analyticsDocs store ↔ ∃ p ∈ store, insertedDoc p.1 p.2 = d := by
  simp [analyticsDocs, List.mem_map]

lemma map_docGet_sessionId (store : AnalyticsStore) :
    (analyticsDocs store).map (fun d => docGet d "sessionId") =
      store.map (fun p => some (BVal.str p.2.sessionId)) := by
  simp only [analyticsDocs, List.map_map]
  exact List.map_congr_left (fun a _ => rfl)

lemma map_docGet_page (store : AnalyticsStore) :
    (analyticsDocs store).map (fun d => docGet d "page") =
      store.map (fun p => some (BVal.str p.2.page)) := by
  simp only [analyticsDocs, List.map_map]
  exact List.map_congr_left (fun a _ => rfl)

lemma map_docGet_country (store : AnalyticsStore) :
    ((analyticsDocs store).map (projectDoc ["country"])).map
        (fun d => docGet d "country") =
      store.map (fun p => some (optB p.2.country)) := by
  simp only [analyticsDocs, List.map_map]
  exact List.map_congr_left (fun a _ => rfl)

lemma someStr_injective : Function.Injective (fun s : String => some (BVal.str s)) := by
  intro a b h
  simpa using h

lemma optB_injective : Function.Injective optB := by
  intro a b h
  cases a <;> cases b <;> simp_all [optB]

lemma someOptB_injective : Function.Injective (fun o : Option String => some (optB o)) := by
  intro a b h
  exact optB_injective (by simpa using h)

lemma dedup_length_map_injective {α β : Type} [DecidableEq α] [DecidableEq β]
    {f : α → β} (hf : Function.Injective f) (l : List α) :
    ((l.map f).dedup).length = l.dedup.length := by
  have h1 : (l.map f).toFinset = l.toFinset.image f := by
    induction l with
    | nil => simp
    | cons a t ih => simp [ih]
  rw [← List.card_toFinset, ← List.card_toFinset, h1,
    Finset.card_image_of_injective _ hf]

/-! ### Facts about groupCounts -/

lemma countOf_eq_zero {α : Type} [DecidableEq α] {l : List α} {v : α}
    (hv : v ∉ l) : countOf l v = 0 := by
  induction l with
  | nil => rfl
  | cons x t ih =>
      have hx : x ≠ v := fun h => hv (h ▸ List.mem_cons_self x t)
      simp [countOf, hx, ih (fun h => hv (List.mem_cons_of_mem x h))]

lemma countOf_pos {α : Type} [DecidableEq α] {l : List α} {v : α}
    (hv : v ∈ l) : 0 < countOf l v := by
  induction l with
  | nil => cases hv
  | cons x t ih =>
      rcases List.mem_cons.mp hv with h | h
      · simp [countOf, h.symm]
      · simp [countOf]
        exact Or.inl (ih h)

lemma countOf_map_injective {α β : Type} [DecidableEq α] [DecidableEq β]
    {f : α → β} (hf : Function.Injective f) (l : List α) (a : α) :
    countOf (l.map f) (f a) = countOf l a := by
  induction l with
  | nil => rfl
  | cons x t ih =>
      by_cases h : x = a
      · simp [countOf, h, ih]
      · have hne : ¬f x = f a := fun hfa => h (hf hfa)
        simp [countOf, h, hne, ih]

lemma countOf_filter {α : Type} [DecidableEq α] (p : α → Bool) (v : α)
    (hv : p v = true) (l : List α) :
    countOf (l.filter p) v = countOf l v := by
  induction l with
  | nil => rfl
  | cons x t ih =>
      by_cases h : x = v
      · subst h
        simp [List.filter_cons, hv, countOf, ih]
      · cases hp : p x <;> simp [List.filter_cons, hp, countOf, h, ih]

lemma mem_groupCounts {α : Type} [DecidableEq α] {l : List α} {p : α × Nat}
    (h : p ∈ groupCounts l) : p.1 ∈ l ∧ p.2 = countOf l p.1 := by
  obtain ⟨k, hk, rfl⟩ := List.mem_map.mp h
  exact ⟨List.mem_dedup.mp hk, rfl⟩

lemma groupCounts_map_fst {α : Type} [DecidableEq α] (l : List α) :
    (groupCounts l).map Prod.fst = l.dedup := by
  simp only [groupCounts, List.map_map]
  rw [show (Prod.fst ∘ fun k => (k, countOf l k)) = id from rfl, List.map_id]

lemma mem_groupCounts_of_mem {α : Type} [DecidableEq α] {l : List α} {k : α}
    (h : k ∈ l) : (k, countOf l k) ∈ groupCounts l :=
  List.mem_map.mpr ⟨k, List.mem_dedup.mpr h, rfl⟩

/-- The count a grouped tally reports for a key. -/
def lookupCount (m : List (Option BVal × Nat)) (v : Option BVal) : Nat :=
  ((m.find? (fun p => p.1 == v)).map (fun p => p.2)).getD 0

lemma lookupCount_groupCounts (l : List (Option BVal)) (v : Option BVal) :
    lookupCount (groupCounts l) v = countOf l v := by
  unfold lookupCount
  cases hfind : (groupCounts l).find? (fun p => p.1 == v) with
  | none =>
      have hnil : v ∉ l := by
        intro hv
        have hpred := List.find?_eq_none.mp hfind _ (mem_groupCounts_of_mem hv)
        simp at hpred
      simp [countOf_eq_zero hnil]
  | some p =>
      have hpv := List.find?_some hfind
      simp only [beq_iff_eq] at hpv
      obtain ⟨_, hcount⟩ := mem_groupCounts (List.mem_of_find?_eq_some hfind)
      simp [hcount, hpv]

/-! ### The handler succeeds exactly when every read succeeds -/

/-- Every storage read of one stats computation succeeds. -/
def readsOk (ctx : StatsCtx) : Prop :=
  ctx.countFails = false ∧ ctx.distinctFails = false ∧
  ctx.aggregateFails = false ∧ ctx.recentFails = false ∧ ctx.countryFails = false

lemma get_analytics_stats_ok {ctx : StatsCtx} (store : AnalyticsStore)
    (h : readsOk ctx) :
    get_analytics_stats ctx store = .ok (statsOf ctx.now store) := by
  obtain ⟨h1, h2, h3, h4, h5⟩ := h
  simp [get_analytics_stats, statsTry, h1, h2, h3, h4, h5]

/-! ### Concrete runs used by the scenario claims and witnesses -/

/-- A request with no proxy headers and peer address 1.2.3.4. -/
def c1Req : Request := { client := some "1.2.3.4" }

/-- Ingestion context for the scenario runs: geolocation unreachable,
fixed clock, fresh tokens. -/
def c1Ctx (k : Nat) : TrackCtx :=
  { geoResp := none, now := 1000000, freshId := k, oid := k }

/-- One tracked page view, as the store ends up after a successful call. -/
def trackStep (st : AnalyticsStore) (x : AnalyticsTrack × Nat) : AnalyticsStore :=
  match track_analytics x.1 c1Req (c1Ctx x.2) st with
  | .ok (s, _) => s
  | .error _ => st

/-- The store after ingesting pages / , / , /about with sessions s1, s1, s2. -/
def c1Store : AnalyticsStore :=
  [({ page := "/", sessionId := "s1" }, 1),
   ({ page := "/", sessionId := "s1" }, 2),
   ({ page := "/about", sessionId := "s2" }, 3)].foldl trackStep []

/-- C1: after ingesting events for pages ["/", "/", "/about"] with session
ids ["s1","s1","s2"], the stats operation returns totalViews = 3,
uniqueVisitors = 2 and popularPages = [(/, 2), (/about, 1)] in that order. -/
theorem c1_scenario_stats :
    (get_analytics_stats { now := 1000000 } c1Store).map
        (fun s => (s.totalViews, s.uniqueVisitors, s.popularPages)) =
      .ok (3, 2, [(some (BVal.str "/"), 2), (some (BVal.str "/about"), 1)]) := by
  rfl

/-- C2: for every stored event set whose session identifiers take exactly
K distinct values, the unique-visitor count of the returned snapshot
equals K, whatever the number of events. -/
theorem c2_unique_visitors (ctx : StatsCtx) (store : AnalyticsStore) (K : Nat)
    (hok : readsOk ctx)
    (hK : ((store.map (fun p => p.2.sessionId)).toFinset).card = K) :
    ∃ s, get_analytics_stats ctx store = Except.ok s ∧ s.uniqueVisitors = K := by
  refine ⟨statsOf ctx.now store, get_analytics_stats_ok store hok, ?_⟩
  show unique_visitors (analyticsDocs store) = K
  unfold unique_visitors
  rw [map_docGet_sessionId]
  have hmm : store.map (fun p => some (BVal.str p.2.sessionId)) =
      (store.map (fun p => p.2.sessionId)).map (fun s => some (BVal.str s)) := by
    rw [List.map_map]
    rfl
  rw [hmm, dedup_length_map_injective someStr_injective, ← List.card_toFinset, hK]

/-- A small store used to witness the universally quantified claims:
three events, two distinct sessions, two distinct pages,
one "Unknown" country. -/
def wStore : AnalyticsStore :=
  [(1, { id := 1, sessionId := "s1", page := "/", timestamp := 500,
         country := some "France" }),
   (2, { id := 2, sessionId := "s1", page := "/", timestamp := 900,
         country := some "Unknown" }),
   (3, { id := 3, sessionId := "s2", page := "/about", timestamp := 700,
         country := some "France" })]

theorem c2_unique_visitors_witness :
    ∃ s, get_analytics_stats { now := 1000 } wStore = Except.ok s ∧
      s.uniqueVisitors = 2 :=
  c2_unique_visitors { now := 1000 } wStore 2 ⟨rfl, rfl, rfl, rfl, rfl⟩ (by decide)

/-- C3: the popular-pages list consists of per-page view counts grouped
by page (one entry per page, each carrying the exact view count of that
page), sorted by count descending, with length never exceeding 10; a
page can only be missing when the list is full at 10 entries. -/
theorem c3_popular_pages (ctx : StatsCtx) (store : AnalyticsStore)
    (hok : readsOk ctx) :
    ∃ s, get_analytics_stats ctx store = Except.ok s ∧
      s.popularPages.length ≤ 10 ∧
      List.Sorted viewsDesc s.popularPages ∧
      (s.popularPages.map Prod.fst).Nodup ∧
      (∀ p ∈ s.popularPages, ∃ pg : String, p.1 = some (BVal.str pg) ∧
        p.2 = countOf (store.map (fun q => q.2.page)) pg) ∧
      (∀ pg ∈ store.map (fun q => q.2.page),
        some (BVal.str pg) ∈ s.popularPages.map Prod.fst ∨
          s.popularPages.length = 10) := by
  refine ⟨statsOf ctx.now store, get_analytics_stats_ok store hok, ?_, ?_, ?_, ?_, ?_⟩ <;>
    show _ <;> try skip
  all_goals
    have hvals := map_docGet_page store
  · show (popular_pages (analyticsDocs store)).length ≤ 10
    unfold popular_pages
    rw [List.length_take]
    exact min_le_left _ _
  · show List.Sorted viewsDesc (popular_pages (analyticsDocs store))
    exact List.Pairwise.sublist (List.take_sublist _ _)
      (List.sorted_insertionSort viewsDesc _)
  · show ((popular_pages (analyticsDocs store)).map Prod.fst).Nodup
    have hperm : (((groupCounts ((analyticsDocs store).map
          (fun d => docGet d "page"))).insertionSort viewsDesc).map Prod.fst).Perm
        ((groupCounts ((analyticsDocs store).map (fun d => docGet d "page"))).map
          Prod.fst) :=
      (List.perm_insertionSort viewsDesc _).map _
    have hnd : (((groupCounts ((analyticsDocs store).map
          (fun d => docGet d "page"))).insertionSort viewsDesc).map Prod.fst).Nodup := by
      rw [hperm.nodup_iff, groupCounts_map_fst]
      exact List.nodup_dedup _
    unfold popular_pages
    rw [List.map_take]
    exact List.Sublist.nodup (List.take_sublist _ _) hnd
  · intro p hp
    have hp2 : p ∈ (groupCounts ((analyticsDocs store).map
        (fun d => docGet d "page"))).insertionSort viewsDesc :=
      List.Sublist.mem hp (List.take_sublist _ _)
    have hp3 := (List.mem_insertionSort viewsDesc).mp hp2
    obtain ⟨hmem, hcount⟩ := mem_groupCounts hp3
    rw [hvals] at hmem hcount
    obtain ⟨q, hq, hqe⟩ := List.mem_map.mp hmem
    refine ⟨q.2.page, hqe.symm, ?_⟩
    rw [hcount, ← hqe]
    have hsplit : store.map (fun p => some (BVal.str p.2.page)) =
        (store.map (fun q => q.2.page)).map (fun s => some (BVal.str s)) := by
      rw [List.map_map]
      rfl
    rw [hsplit]
    exact countOf_map_injective someStr_injective _ _
  · intro pg hpg
    have hmem : some (BVal.str pg) ∈ (analyticsDocs store).map
        (fun d => docGet d "page") := by
      rw [hvals]
      obtain ⟨q, hq, hqe⟩ := List.mem_map.mp hpg
      exact List.mem_map.mpr ⟨q, hq, by rw [hqe]⟩
    have hfst : some (BVal.str pg) ∈ ((groupCounts ((analyticsDocs store).map
        (fun d => docGet d "page"))).insertionSort viewsDesc).map Prod.fst := by
      have hperm : (((groupCounts ((analyticsDocs store).map
            (fun d => docGet d "page"))).insertionSort viewsDesc).map Prod.fst).Perm
          ((groupCounts ((analyticsDocs store).map (fun d => docGet d "page"))).map
            Prod.fst) :=
        (List.perm_insertionSort viewsDesc _).map _
      rw [hperm.mem_iff, groupCounts_map_fst]
      exact List.mem_dedup.mpr hmem
    by_cases hlen : ((groupCounts ((analyticsDocs store).map
        (fun d => docGet d "page"))).insertionSort viewsDesc).length ≤ 10
    · left
      show some (BVal.str pg) ∈ (popular_pages (analyticsDocs store)).map Prod.fst
      unfold popular_pages
      rw [List.take_of_length_le hlen]
      exact hfst
    · right
      show (popular_pages (analyticsDocs store)).length = 10
      unfold popular_pages
      rw [List.length_take]
      exact Nat.min_eq_left (Nat.le_of_lt (Nat.lt_of_not_le hlen))

theorem c3_popular_pages_witness :
    ∃ s, get_analytics_stats { now := 1000 } wStore = Except.ok s ∧
      s.popularPages.length ≤ 10 ∧
      List.Sorted viewsDesc s.popularPages ∧
      (s.popularPages.map Prod.fst).Nodup ∧
      (∀ p ∈ s.popularPages, ∃ pg : String, p.1 = some (BVal.str pg) ∧
        p.2 = countOf (wStore.map (fun q => q.2.page)) pg) ∧
      (∀ pg ∈ wStore.map (fun q => q.2.page),
        some (BVal.str pg) ∈ s.popularPages.map Prod.fst ∨
          s.popularPages.length = 10) :=
  c3_popular_pages { now := 1000 } wStore ⟨rfl, rfl, rfl, rfl, rfl⟩

/-- The recent-visitors list of a stats response (empty on error). -/
def recentOf (e : Except HTTPError AnalyticsStats) : List Doc :=
  match e with
  | .ok s => s.recentVisitors
  | .error _ => []

/-- A store holding one fresh event, used to exhibit the `_id` field the
recent-visitors projection keeps. -/
def c4Store : AnalyticsStore :=
  [(7, { id := 1, sessionId := "s1", page := "/", timestamp := 1000000,
         ip := some "1.2.3.4", country := some "France", city := some "Paris" })]

/-- C4 counterexample: with one stored event at the computation instant,
the single recent-visitors entry carries the field `_id`, which is not
among the four fields {country, city, timestamp, page} the claim says
are the only ones present. -/
theorem c4_counterexample :
    (recentOf (get_analytics_stats { now := 1000000 } c4Store)).length = 1 ∧
    "_id" ∈ docKeys ((recentOf (get_analytics_stats { now := 1000000 } c4Store)).headD []) ∧
    "_id" ∉ recentProjection := by
  decide

/-- C4 amended: every recent-visitors entry has a timestamp within the
trailing 24 hours of the computation instant, the list is sorted by
timestamp descending and never exceeds 20 entries, and each entry is
projected to exactly the fields {_id, page, timestamp, country, city}:
the four requested fields plus the stored `_id`, which the projection
does not suppress. -/
theorem c4_recent_visitors_amended (ctx : StatsCtx) (store : AnalyticsStore)
    (hok : readsOk ctx) :
    ∃ s, get_analytics_stats ctx store = Except.ok s ∧
      s.recentVisitors.length ≤ 20 ∧
      List.Sorted tsDesc s.recentVisitors ∧
      ∀ d ∈ s.recentVisitors, tsFilter (ctx.now - oneDay) d = true ∧
        docKeys d = ["_id", "page", "timestamp", "country", "city"] := by
  refine ⟨statsOf ctx.now store, get_analytics_stats_ok store hok, ?_, ?_, ?_⟩
  · show (recent_visitors ctx.now (analyticsDocs store)).length ≤ 20
    unfold recent_visitors
    rw [List.length_map, List.length_take]
    exact min_le_left _ _
  · show List.Sorted tsDesc (recent_visitors ctx.now (analyticsDocs store))
    unfold recent_visitors
    apply List.pairwise_map.mpr
    have hsorted : List.Pairwise tsDesc
        ((((analyticsDocs store).filter
          (tsFilter (ctx.now - oneDay))).insertionSort tsDesc).take 20) :=
      List.Pairwise.sublist (List.take_sublist _ _)
        (List.sorted_insertionSort tsDesc _)
    refine List.Pairwise.imp_of_mem ?_ hsorted
    intro a b ha hb hab
    have hmema : a ∈ analyticsDocs store := by
      have h1 := List.Sublist.mem ha (List.take_sublist _ _)
      have h2 := (List.mem_insertionSort tsDesc).mp h1
      exact (List.mem_filter.mp h2).1
    have hmemb : b ∈ analyticsDocs store := by
      have h1 := List.Sublist.mem hb (List.take_sublist _ _)
      have h2 := (List.mem_insertionSort tsDesc).mp h1
      exact (List.mem_filter.mp h2).1
    obtain ⟨pa, _, hpa⟩ := mem_analyticsDocs.mp hmema
    obtain ⟨pb, _, hpb⟩ := mem_analyticsDocs.mp hmemb
    show tsDesc (projectDoc recentProjection a) (projectDoc recentProjection b)
    unfold tsDesc at hab ⊢
    rw [← hpa, ← hpb] at hab ⊢
    rw [tsKey_projected, tsKey_projected, tsKey_insertedDoc, tsKey_insertedDoc] at *
    exact hab
  · intro d hd
    obtain ⟨d0, hd0, rfl⟩ := List.mem_map.mp hd
    have h1 := List.Sublist.mem hd0 (List.take_sublist _ _)
    have h2 := (List.mem_insertionSort tsDesc).mp h1
    obtain ⟨hmem, hfil⟩ := List.mem_filter.mp h2
    obtain ⟨p, _, hp⟩ := mem_analyticsDocs.mp hmem
    constructor
    · rw [← hp, tsFilter_projected, hp]
      exact hfil
    · rw [← hp]
      exact docKeys_projected p.1 p.2

theorem c4_recent_visitors_amended_witness :
    ∃ s, get_analytics_stats { now := 1000 } wStore = Except.ok s ∧
      s.recentVisitors.length ≤ 20 ∧
      List.Sorted tsDesc s.recentVisitors ∧
      ∀ d ∈ s.recentVisitors, tsFilter ((1000 : Int) - oneDay) d = true ∧
        docKeys d = ["_id", "page", "timestamp", "country", "city"] :=
  c4_recent_visitors_amended { now := 1000 } wStore ⟨rfl, rfl, rfl, rfl, rfl⟩

/-- The store after ingesting one event whose country could not be
resolved (geolocation unreachable). -/
def c5Store : AnalyticsStore :=
  match track_analytics { page := "/", sessionId := "s1" } c1Req
      { geoResp := none, now := 1000000, freshId := 1, oid := 1 } [] with
  | .ok (s, _) => s
  | .error _ => []

/-- C5: the country-stats mapping counts the country field over all
events except those holding the "Unknown" sentinel: every entry has a
non-"Unknown" key and a positive count, the reported count of every
country other than "Unknown" is its exact frequency among the stored
events, the "Unknown" key reports nothing, and after ingesting a single
event with no resolvable country the mapping is empty. -/
theorem c5_country_stats :
    (∀ (ctx : StatsCtx) (store : AnalyticsStore), readsOk ctx →
      ∃ s, get_analytics_stats ctx store = Except.ok s ∧
        (∀ p ∈ s.countryStats, p.1 ≠ some (BVal.str "Unknown") ∧ 0 < p.2) ∧
        (∀ c : String, c ≠ "Unknown" →
          lookupCount s.countryStats (some (BVal.str c)) =
            countOf (store.map (fun q => q.2.country)) (some c)) ∧
        lookupCount s.countryStats (some (BVal.str "Unknown")) = 0) ∧
    (∃ s, get_analytics_stats { now := 1000000 } c5Store = Except.ok s ∧
      s.countryStats = []) := by
  constructor
  · intro ctx store hok
    refine ⟨statsOf ctx.now store, get_analytics_stats_ok store hok, ?_, ?_, ?_⟩
    all_goals
      have hvals := map_docGet_country store
    · intro p hp
      obtain ⟨hmem, hcount⟩ := mem_groupCounts hp
      obtain ⟨-, hpred⟩ := List.mem_filter.mp hmem
      refine ⟨bne_iff_ne.mp hpred, ?_⟩
      rw [hcount]
      exact countOf_pos hmem
    · intro c hc
      show lookupCount (country_stats (analyticsDocs store)) _ = _
      unfold country_stats
      rw [lookupCount_groupCounts]
      have hpred : ((some (BVal.str c) : Option BVal) !=
          some (BVal.str "Unknown")) = true := by
        apply bne_iff_ne.mpr
        simp [hc]
      rw [countOf_filter (fun v => v != some (BVal.str "Unknown"))
        (some (BVal.str c)) hpred, hvals]
      have hsplit : store.map (fun p => some (optB p.2.country)) =
          (store.map (fun q => q.2.country)).map (fun o => some (optB o)) := by
        rw [List.map_map]
        rfl
      rw [hsplit]
      exact countOf_map_injective someOptB_injective _ (some c)
    · show lookupCount (country_stats (analyticsDocs store)) _ = 0
      unfold country_stats
      rw [lookupCount_groupCounts]
      apply countOf_eq_zero
      intro hmem
      have := (List.mem_filter.mp hmem).2
      simp at this
  · exact ⟨statsOf 1000000 c5Store,
      get_analytics_stats_ok c5Store ⟨rfl, rfl, rfl, rfl, rfl⟩, by decide⟩

theorem c5_country_stats_witness :
    ∃ s, get_analytics_stats { now := 1000 } wStore = Except.ok s ∧
      (∀ p ∈ s.countryStats, p.1 ≠ some (BVal.str "Unknown") ∧ 0 < p.2) ∧
      (∀ c : String, c ≠ "Unknown" →
        lookupCount s.countryStats (some (BVal.str c)) =
          countOf (wStore.map (fun q => q.2.country)) (some c)) ∧
      lookupCount s.countryStats (some (BVal.str "Unknown")) = 0 :=
  c5_country_stats.1 { now := 1000 } wStore ⟨rfl, rfl, rfl, rfl, rfl⟩

/-- A geolocation exchange that did not yield a 200 response. -/
def geoFailed (g : Option (Nat × GeoData)) : Prop :=
  g = none ∨ ∃ st d, g = some (st, d) ∧ st ≠ 200

/-- C6: whenever the geolocation lookup fails (timeout or exception,
modelled as no response, or a non-200 response), the lookup returns the
"Unknown" sentinel triple instead of raising, the VisitEvent is still
persisted with country and city equal to "Unknown", and ingestion still
acknowledges success. -/
theorem c6_geo_failure_swallowed (a : AnalyticsTrack) (req : Request)
    (ctx : TrackCtx) (store : AnalyticsStore) (hgeo : geoFailed ctx.geoResp)
    (hins : ctx.insertFails = false) :
    get_ip_info ctx.geoResp =
      { country := "Unknown", city := "Unknown", region := "Unknown" } ∧
    ∃ rec : AnalyticsRecord, track_analytics a req ctx store =
        Except.ok (store ++ [(ctx.oid, rec)],
          { message := "Analytics tracked successfully" }) ∧
      rec.country = some "Unknown" ∧ rec.city = some "Unknown" := by
  have hinfo : get_ip_info ctx.geoResp =
      { country := "Unknown", city := "Unknown", region := "Unknown" } := by
    rcases hgeo with h | ⟨st, d, h, hst⟩
    · rw [h]
      rfl
    · rw [h]
      simp [get_ip_info, hst]
  refine ⟨hinfo,
    { id := ctx.freshId, sessionId := a.sessionId, page := a.page,
      timestamp := a.timestamp.getD ctx.now, userAgent := a.userAgent,
      ip := some (get_client_ip req), country := some "Unknown",
      city := some "Unknown", referrer := a.referrer }, ?_, rfl, rfl⟩
  simp [track_analytics, hins, hinfo]

theorem c6_geo_failure_swallowed_witness :
    get_ip_info none =
      { country := "Unknown", city := "Unknown", region := "Unknown" } ∧
    ∃ rec : AnalyticsRecord,
      track_analytics { page := "/", sessionId := "s1" } c1Req (c1Ctx 1) [] =
        Except.ok ([] ++ [(1, rec)],
          { message := "Analytics tracked successfully" }) ∧
      rec.country = some "Unknown" ∧ rec.city = some "Unknown" :=
  c6_geo_failure_swallowed { page := "/", sessionId := "s1" } c1Req (c1Ctx 1) []
    (Or.inl rfl) rfl

/-- C7: whenever any storage read of the stats computation fails, the
whole computation aborts with the single aggregate 500 response and no
snapshot, whole or part, is returned. -/
theorem c7_storage_failure_aborts (ctx : StatsCtx) (store : AnalyticsStore)
    (h : ctx.countFails = true ∨ ctx.distinctFails = true ∨
      ctx.aggregateFails = true ∨ ctx.recentFails = true ∨
      ctx.countryFails = true) :
    get_analytics_stats ctx store =
      Except.error (HTTPError.httpException 500 "Failed to get analytics stats") ∧
    ∀ s, get_analytics_stats ctx store ≠ Except.ok s := by
  have herr : statsTry ctx store = none := by
    cases h1 : ctx.countFails <;> cases h2 : ctx.distinctFails <;>
      cases h3 : ctx.aggregateFails <;> cases h4 : ctx.recentFails <;>
      cases h5 : ctx.countryFails <;> simp_all [statsTry]
  constructor
  · simp [get_analytics_stats, herr]
  · intro s
    simp [get_analytics_stats, herr]

theorem c7_storage_failure_aborts_witness :
    get_analytics_stats { now := 1000, countFails := true } wStore =
      Except.error (HTTPError.httpException 500 "Failed to get analytics stats") ∧
    ∀ s, get_analytics_stats { now := 1000, countFails := true } wStore ≠
      Except.ok s :=
  c7_storage_failure_aborts { now := 1000, countFails := true } wStore
    (Or.inl rfl)

/-- The claimed resolution rule, following the words of the spec: the
first non-empty among the first comma-separated entry of the
forwarded-for header, the real-IP header, and the transport-level peer
address. -/
def client_ip_claimed (r : Request) : String :=
  (([pyStrip (pySplitFirst (r.xForwardedFor.getD "")), r.xRealIp.getD "",
     r.client.getD ""].find? (fun s => s != "")).getD "")

/-- C8 counterexample: with no proxy headers and transport-level peer
address "testclient", the code resolves the address to "127.0.0.1",
not to the peer address "testclient" the claimed rule selects. -/
theorem c8_counterexample :
    get_client_ip { client := some "testclient" } = "127.0.0.1" ∧
    client_ip_claimed { client := some "testclient" } = "testclient" ∧
    get_client_ip { client := some "testclient" } ≠
      client_ip_claimed { client := some "testclient" } := by
  refine ⟨rfl, rfl, ?_⟩
  decide

/-- The amended resolution rule: the stripped first comma-separated
entry of the forwarded-for header whenever that header is non-empty
(even if the entry itself is empty), otherwise the real-IP header
whenever it is non-empty, otherwise the transport-level peer address,
where a missing peer or the literal peer "testclient" is replaced by
"127.0.0.1". -/
def client_ip_amended (r : Request) : String :=
  (([if (r.xForwardedFor.getD "") ≠ "" then
       some (pyStrip (pySplitFirst (r.xForwardedFor.getD ""))) else none,
     if (r.xRealIp.getD "") ≠ "" then some (r.xRealIp.getD "") else none,
     some (match r.client with
           | some h => if h = "testclient" then "127.0.0.1" else h
           | none => "127.0.0.1")].filterMap id).headD "127.0.0.1")

/-- C8 amended: for every request, the address the code resolves equals
the amended rule: forwarded-for first entry (stripped) when the header
is non-empty, else a non-empty real-IP header, else the peer address
with "testclient" and missing peers replaced by "127.0.0.1". -/
theorem c8_client_ip_amended (r : Request) :
    get_client_ip r = client_ip_amended r := by
  unfold get_client_ip client_ip_amended
  by_cases h1 : (r.xForwardedFor.getD "") ≠ ""
  · simp [h1]
  · by_cases h2 : (r.xRealIp.getD "") ≠ ""
    · simp [h1, h2]
    · cases hc : r.client with
      | none => simp [h1, h2, hc]
      | some h =>
          by_cases h3 : h = "testclient"
          · simp [h1, h2, hc, h3]
          · simp [h1, h2, hc, h3]

/-- C9: the persisted VisitEvent carries the freshly drawn identifier
assigned at construction; as long as the drawn identifier is fresh for
the store (the model of uuid4 collision-freeness), identifiers in the
store stay pairwise distinct, and when the caller supplies no timestamp
the event timestamp is the ingestion instant. -/
theorem c9_fresh_identifier_and_timestamp (a : AnalyticsTrack) (req : Request)
    (ctx : TrackCtx) (store : AnalyticsStore) (hins : ctx.insertFails = false)
    (hfresh : ∀ p ∈ store, p.2.id ≠ ctx.freshId)
    (hnodup : (store.map (fun p => p.2.id)).Nodup) :
    ∃ rec : AnalyticsRecord, track_analytics a req ctx store =
        Except.ok (store ++ [(ctx.oid, rec)],
          { message := "Analytics tracked successfully" }) ∧
      rec.id = ctx.freshId ∧
      ((store ++ [(ctx.oid, rec)]).map (fun p => p.2.id)).Nodup ∧
      (a.timestamp = none → rec.timestamp = ctx.now) := by
  refine
    ⟨{ id := ctx.freshId, sessionId := a.sessionId, page := a.page,
       timestamp := a.timestamp.getD ctx.now, userAgent := a.userAgent,
       ip := some (get_client_ip req),
       country := some (get_ip_info ctx.geoResp).country,
       city := some (get_ip_info ctx.geoResp).city,
       referrer := a.referrer }, ?_, rfl, ?_, ?_⟩
  · simp [track_analytics, hins]
  · rw [List.map_append, List.nodup_append]
    refine ⟨hnodup, List.nodup_singleton _, ?_⟩
    intro x hx hx2
    obtain ⟨p, hp, hpe⟩ := List.mem_map.mp hx
    have hxe : x = ctx.freshId := by simpa using hx2
    exact hfresh p hp (hpe.trans hxe)
  · intro h
    show a.timestamp.getD ctx.now = ctx.now
    rw [h]
    rfl

theorem c9_fresh_identifier_and_timestamp_witness :
    ∃ rec : AnalyticsRecord,
      track_analytics { page := "/", sessionId := "s1" } c1Req (c1Ctx 1) [] =
        Except.ok ([] ++ [(1, rec)],
          { message := "Analytics tracked successfully" }) ∧
      rec.id = 1 ∧
      (([] ++ [(1, rec)]).map (fun p : Nat × AnalyticsRecord => p.2.id)).Nodup ∧
      (({ page := "/", sessionId := "s1" } : AnalyticsTrack).timestamp = none →
        rec.timestamp = 1000000) :=
  c9_fresh_identifier_and_timestamp { page := "/", sessionId := "s1" } c1Req
    (c1Ctx 1) [] rfl (by simp) (by simp)

/-- C10: subscribing with an email already present in the newsletter
collection performs no insert: the collection is returned unchanged and
the call still acknowledges success. -/
theorem c10_subscribe_idempotent (n : NewsletterSubscribe)
    (ctx : NewsletterCtx) (store : List NewsletterRecord)
    (hfind : ctx.findFails = false)
    (h : ∃ r ∈ store, r.email = n.email) :
    subscribe_newsletter n ctx store =
      Except.ok (store,
        { message := "You are already subscribed to our newsletter!" }) := by
  obtain ⟨r, hr, he⟩ := h
  have hsome : (store.find? (fun q => q.email == n.email)).isSome = true :=
    List.find?_isSome.mpr ⟨r, hr, beq_iff_eq.mpr he⟩
  obtain ⟨x, hx⟩ := Option.isSome_iff_exists.mp hsome
  simp [subscribe_newsletter, hfind, hx]

theorem c10_subscribe_idempotent_witness :
    subscribe_newsletter { email := "a@b.c", name := "A" }
        { now := 5, freshId := 9 }
        [{ id := 1, email := "a@b.c", name := "A", subscribedAt := 0 }] =
      Except.ok ([{ id := 1, email := "a@b.c", name := "A", subscribedAt := 0 }],
        { message := "You are already subscribed to our newsletter!" }) :=
  c10_subscribe_idempotent { email := "a@b.c", name := "A" }
    { now := 5, freshId := 9 }
    [{ id := 1, email := "a@b.c", name := "A", subscribedAt := 0 }] rfl
    ⟨{ id := 1, email := "a@b.c", name := "A", subscribedAt := 0 },
      List.mem_singleton_self _, rfl⟩

theorem c8_client_ip_amended_witness :
    get_client_ip { xForwardedFor := some " 1.2.3.4 , 5.6.7.8" } =
      client_ip_amended { xForwardedFor := some " 1.2.3.4 , 5.6.7.8" } :=
  c8_client_ip_amended { xForwardedFor := some " 1.2.3.4 , 5.6.7.8" }
